import Mathlib

/-!
Shallow embedding of the `database` package of time-capsule-server:
`GormDBWrapper` (a dual-mode delegating wrapper over a gorm backend),
its `Transaction` protocol, and the generic `GormRepository` façade.

The first layer (`Wrap` namespace is the global one here) embeds the
untyped wrapper of `src/database/gorm_db_wrapper.go`: Go `interface{}`
arguments become the concrete inductive `GoVal`, the `*gorm.DB` handle
becomes `GormDB` (an `Error` slot plus abstract backend state `rest`),
the gorm engine itself (an external collaborator) becomes an abstract
record of state transformers `Backend`, and the testify `*mock.Mock`
recorder becomes an optional list of recorded calls.  Each wrapper
method additionally emits one `Ev` event naming the method and whether
the call was recorded or forwarded, so that invocation counts (e.g.
"rollback is invoked exactly once") are statable.

The second layer (`RepoM` namespace, further below) embeds the typed
repository of the generics file at the instantiation the repository
uses, with an explicit heap so that Go's pass-by-value of entities and
the `&obj` address-of-local-copy idiom are visible.
-/

/-- Go `interface{}` values as the wrapper layer sees them: opaque base
values, pointers (addresses), and slices.  `slice` matters because Go
passes an unspread `[]interface{}` argument to a variadic parameter as a
single slice-valued element. -/
inductive GoVal where
  | base (n : Nat)
  | ptr (n : Nat)
  | slice (l : List GoVal)

/-- Names of the wrapper's methods, used to tag recorded calls and
emitted events. -/
inductive MName where
  | create
  | find
  | first
  | save
  | delete
  | withContext
  | begin
  | commit
  | rollback
deriving DecidableEq

/-- The testify call recorder (`*mock.Mock`): the list of calls recorded
so far, each a method name with the argument list passed to `Called`. -/
structure MockRec where
  calls : List (MName × List GoVal)

/-- mock.Mock.Called: records the invocation with its arguments. -/
def MockRec.Called (m : MockRec) (n : MName) (args : List GoVal) : MockRec :=
  ⟨m.calls ++ [(n, args)]⟩

/-- The `*gorm.DB` handle: its `Error` slot (the sole error channel) and
the rest of the engine's state, abstract at this layer. -/
structure GormDB (E R : Type) where
  Error : Option E
  rest : R

/-- The gorm engine as the external collaborator the wrapper forwards
to: each operation maps the current `*gorm.DB` state and the arguments
actually passed to a new `*gorm.DB` state.  Variadic parameters are
argument lists of `GoVal`. -/
structure Backend (E R : Type) where
  create : GormDB E R → GoVal → GormDB E R
  find : GormDB E R → GoVal → List GoVal → GormDB E R
  first : GormDB E R → GoVal → List GoVal → GormDB E R
  save : GormDB E R → GoVal → GormDB E R
  delete : GormDB E R → GoVal → List GoVal → GormDB E R
  withContext : GormDB E R → GoVal → GormDB E R
  begin : GormDB E R → GormDB E R
  commit : GormDB E R → GormDB E R
  rollback : GormDB E R → GormDB E R

/-- GormDBWrapper: the dual-mode delegating wrapper.  `DB` and `Mock`
are the two Go struct fields; `ref` models the Go pointer identity of
the wrapper object (methods have pointer receivers and return the
receiver), so "returns the very same object" is statable as `ref`
preservation. -/
structure GormDBWrapper (E R : Type) where
  DB : GormDB E R
  Mock : Option MockRec
  ref : Nat

/-- Events emitted by the embedding of each wrapper method: either the
call was recorded against the attached recorder (with the arguments
given to `Called`), or it was forwarded to the backend. -/
inductive Ev where
  | recorded (n : MName) (args : List GoVal)
  | forwarded (n : MName)

/-- Method name an event carries. -/
def Ev.name : Ev → MName
  | .recorded n _ => n
  | .forwarded n => n

variable {E R : Type}

/-- GormDBWrapper.Create: mock branch records `Called(value)`; live
branch sets `w.DB = w.DB.Create(value)`. -/
def GormDBWrapper.Create (B : Backend E R) (w : GormDBWrapper E R) (value : GoVal) :
    GormDBWrapper E R × List Ev :=
  match w.Mock with
  | some m => ({ w with Mock := some (m.Called .create [value]) }, [.recorded .create [value]])
  | none => ({ w with DB := B.create w.DB value }, [.forwarded .create])

/-- GormDBWrapper.Find: mock branch records `Called(out, where)` (the
`where` slice is a single argument to `Called`); live branch forwards
`w.DB.Find(out, where...)`, spreading the conditions. -/
def GormDBWrapper.Find (B : Backend E R) (w : GormDBWrapper E R)
    (out : GoVal) (wher : List GoVal) : GormDBWrapper E R × List Ev :=
  match w.Mock with
  | some m =>
      ({ w with Mock := some (m.Called .find [out, .slice wher]) },
        [.recorded .find [out, .slice wher]])
  | none => ({ w with DB := B.find w.DB out wher }, [.forwarded .find])

/-- GormDBWrapper.Delete: mock branch records `Called(value, conds)`;
live branch forwards `w.DB.Delete(value, conds)` — note the source does
NOT spread `conds...`, so gorm receives the conditions slice as one
single variadic element. -/
def GormDBWrapper.Delete (B : Backend E R) (w : GormDBWrapper E R)
    (value : GoVal) (conds : List GoVal) : GormDBWrapper E R × List Ev :=
  match w.Mock with
  | some m =>
      ({ w with Mock := some (m.Called .delete [value, .slice conds]) },
        [.recorded .delete [value, .slice conds]])
  | none => ({ w with DB := B.delete w.DB value [.slice conds] }, [.forwarded .delete])

/-- GormDBWrapper.First: mock branch records `Called(dest, conds)`; live
branch forwards `w.DB.First(dest, conds)` — the source does NOT spread
`conds...`, so gorm receives the conditions slice as one single variadic
element (contrast with `Find`, which spreads). -/
def GormDBWrapper.First (B : Backend E R) (w : GormDBWrapper E R)
    (dest : GoVal) (conds : List GoVal) : GormDBWrapper E R × List Ev :=
  match w.Mock with
  | some m =>
      ({ w with Mock := some (m.Called .first [dest, .slice conds]) },
        [.recorded .first [dest, .slice conds]])
  | none => ({ w with DB := B.first w.DB dest [.slice conds] }, [.forwarded .first])

/-- GormDBWrapper.Save: mock branch records `Called(value)`; live branch
sets `w.DB = w.DB.Save(value)`. -/
def GormDBWrapper.Save (B : Backend E R) (w : GormDBWrapper E R) (value : GoVal) :
    GormDBWrapper E R × List Ev :=
  match w.Mock with
  | some m => ({ w with Mock := some (m.Called .save [value]) }, [.recorded .save [value]])
  | none => ({ w with DB := B.save w.DB value }, [.forwarded .save])

/-- GormDBWrapper.WithContext: mock branch records `Called(ctx)`; live
branch sets `w.DB = w.DB.WithContext(ctx)`. -/
def GormDBWrapper.WithContext (B : Backend E R) (w : GormDBWrapper E R) (ctx : GoVal) :
    GormDBWrapper E R × List Ev :=
  match w.Mock with
  | some m =>
      ({ w with Mock := some (m.Called .withContext [ctx]) }, [.recorded .withContext [ctx]])
  | none => ({ w with DB := B.withContext w.DB ctx }, [.forwarded .withContext])

/-- GormDBWrapper.GetDB: returns the stored `*gorm.DB` handle. -/
def GormDBWrapper.GetDB (w : GormDBWrapper E R) : GormDB E R :=
  w.DB

/-- GormDBWrapper.Begin: mock branch records `Called()`; live branch
sets `w.DB = w.DB.Begin()`. -/
def GormDBWrapper.Begin (B : Backend E R) (w : GormDBWrapper E R) :
    GormDBWrapper E R × List Ev :=
  match w.Mock with
  | some m => ({ w with Mock := some (m.Called .begin []) }, [.recorded .begin []])
  | none => ({ w with DB := B.begin w.DB }, [.forwarded .begin])

/-- GormDBWrapper.Rollback: mock branch records `Called()`; live branch
sets `w.DB = w.DB.Rollback()`. -/
def GormDBWrapper.Rollback (B : Backend E R) (w : GormDBWrapper E R) :
    GormDBWrapper E R × List Ev :=
  match w.Mock with
  | some m => ({ w with Mock := some (m.Called .rollback []) }, [.recorded .rollback []])
  | none => ({ w with DB := B.rollback w.DB }, [.forwarded .rollback])

/-- GormDBWrapper.Commit: mock branch records `Called()`; live branch
sets `w.DB = w.DB.Commit()`. -/
def GormDBWrapper.Commit (B : Backend E R) (w : GormDBWrapper E R) :
    GormDBWrapper E R × List Ev :=
  match w.Mock with
  | some m => ({ w with Mock := some (m.Called .commit []) }, [.recorded .commit []])
  | none => ({ w with DB := B.commit w.DB }, [.forwarded .commit])

/-- GormDBWrapper.Transaction: `txWrapper = w.Begin()`; if
`txWrapper.GetDB().Error != nil` return that error; otherwise run the
transactional function on the handle, rolling back and propagating its
error if non-nil, else committing and returning nil.  The transactional
function `fc` is arbitrary: it receives the handle and yields its error
result together with the handle's state as it left it (in Go it mutates
the same object in place).  The returned event list holds exactly the
wrapper-method invocations `Transaction`'s own body makes. -/
def GormDBWrapper.Transaction (B : Backend E R) (w : GormDBWrapper E R)
    (fc : GormDBWrapper E R → Option E × GormDBWrapper E R) :
    Option E × GormDBWrapper E R × List Ev :=
  let bg := GormDBWrapper.Begin B w
  match (GormDBWrapper.GetDB bg.1).Error with
  | some err => (some err, bg.1, bg.2)
  | none =>
      match fc bg.1 with
      | (some err, tx2) =>
          let rb := GormDBWrapper.Rollback B tx2
          (some err, rb.1, bg.2 ++ rb.2)
      | (none, tx2) =>
          let cm := GormDBWrapper.Commit B tx2
          (none, cm.1, bg.2 ++ cm.2)

/-- Number of events in a trace invoking the method named `n`. -/
def countEv (n : MName) (tr : List Ev) : Nat :=
  (tr.filter fun e => decide (e.name = n)).length

/-- One wrapper-method invocation with its arguments, used to quantify
over all nine methods of the wrapper at once. -/
inductive WOp where
  | create (value : GoVal)
  | find (out : GoVal) (wher : List GoVal)
  | first (dest : GoVal) (conds : List GoVal)
  | save (value : GoVal)
  | delete (value : GoVal) (conds : List GoVal)
  | withContext (ctx : GoVal)
  | begin
  | commit
  | rollback

/-- Dispatch one invocation to the corresponding wrapper method. -/
def applyOp (B : Backend E R) (w : GormDBWrapper E R) : WOp → GormDBWrapper E R × List Ev
  | .create value => GormDBWrapper.Create B w value
  | .find out wher => GormDBWrapper.Find B w out wher
  | .first dest conds => GormDBWrapper.First B w dest conds
  | .save value => GormDBWrapper.Save B w value
  | .delete value conds => GormDBWrapper.Delete B w value conds
  | .withContext ctx => GormDBWrapper.WithContext B w ctx
  | .begin => GormDBWrapper.Begin B w
  | .commit => GormDBWrapper.Commit B w
  | .rollback => GormDBWrapper.Rollback B w

/-- The `*gorm.DB` state the backend returns for one forwarded (live
mode) invocation, with the arguments exactly as the source passes them:
`Find` spreads `where...`, while `First` and `Delete` pass their `conds`
slice unspread, so the backend receives it as one slice-valued element. -/
def liveStep (B : Backend E R) (db : GormDB E R) : WOp → GormDB E R
  | .create value => B.create db value
  | .find out wher => B.find db out wher
  | .first dest conds => B.first db dest [.slice conds]
  | .save value => B.save db value
  | .delete value conds => B.delete db value [.slice conds]
  | .withContext ctx => B.withContext db ctx
  | .begin => B.begin db
  | .commit => B.commit db
  | .rollback => B.rollback db

/-- Name of the method an invocation calls. -/
def WOp.name : WOp → MName
  | .create _ => .create
  | .find _ _ => .find
  | .first _ _ => .first
  | .save _ => .save
  | .delete _ _ => .delete
  | .withContext _ => .withContext
  | .begin => .begin
  | .commit => .commit
  | .rollback => .rollback

/-- Arguments the mock branch hands to `Called`, per method: `Create`,
`Save` and `WithContext` pass the single value, the condition-taking
methods pass the destination and the conditions slice as one element,
and the transaction methods pass no arguments. -/
def WOp.calledArgs : WOp → List GoVal
  | .create value => [value]
  | .find out wher => [out, .slice wher]
  | .first dest conds => [dest, .slice conds]
  | .save value => [value]
  | .delete value conds => [value, .slice conds]
  | .withContext ctx => [ctx]
  | .begin => []
  | .commit => []
  | .rollback => []

theorem countEv_append (n : MName) (t1 t2 : List Ev) :
    countEv n (t1 ++ t2) = countEv n t1 + countEv n t2 := by
  simp [countEv, List.filter_append]

theorem countEv_singleton (e : Ev) (n : MName) :
    countEv n [e] = if e.name = n then 1 else 0 := by
  by_cases h : e.name = n <;> simp [countEv, h]

theorem countEv_applyOp (B : Backend E R) (w : GormDBWrapper E R) (op : WOp) (n : MName) :
    countEv n (applyOp B w op).2 = if op.name = n then 1 else 0 := by
  rcases w with ⟨db, mock, ref⟩
  cases mock <;> cases op <;>
    simp [applyOp, GormDBWrapper.Create, GormDBWrapper.Find, GormDBWrapper.First,
      GormDBWrapper.Save, GormDBWrapper.Delete, GormDBWrapper.WithContext,
      GormDBWrapper.Begin, GormDBWrapper.Commit, GormDBWrapper.Rollback,
      countEv_singleton, Ev.name, WOp.name]

theorem applyOp_mock (B : Backend E R) (w : GormDBWrapper E R) (op : WOp) (m : MockRec)
    (hm : w.Mock = some m) :
    applyOp B w op =
      ({ w with Mock := some (m.Called op.name op.calledArgs) },
        [.recorded op.name op.calledArgs]) := by
  rcases w with ⟨db, mock, ref⟩
  cases hm
  cases op <;> rfl

theorem applyOp_live (B : Backend E R) (w : GormDBWrapper E R) (op : WOp)
    (hm : w.Mock = none) :
    applyOp B w op = ({ w with DB := liveStep B w.DB op }, [.forwarded op.name]) := by
  rcases w with ⟨db, mock, ref⟩
  cases hm
  cases op <;> rfl

theorem countEv_Begin (B : Backend E R) (w : GormDBWrapper E R) (n : MName) :
    countEv n (GormDBWrapper.Begin B w).2 = if MName.begin = n then 1 else 0 :=
  countEv_applyOp B w .begin n

theorem countEv_Rollback (B : Backend E R) (w : GormDBWrapper E R) (n : MName) :
    countEv n (GormDBWrapper.Rollback B w).2 = if MName.rollback = n then 1 else 0 :=
  countEv_applyOp B w .rollback n

theorem countEv_Commit (B : Backend E R) (w : GormDBWrapper E R) (n : MName) :
    countEv n (GormDBWrapper.Commit B w).2 = if MName.commit = n then 1 else 0 :=
  countEv_applyOp B w .commit n

theorem Transaction_begin_fail (B : Backend E R) (w : GormDBWrapper E R)
    (fc : GormDBWrapper E R → Option E × GormDBWrapper E R) (e : E)
    (hb : (GormDBWrapper.GetDB (GormDBWrapper.Begin B w).1).Error = some e) :
    GormDBWrapper.Transaction B w fc =
      (some e, (GormDBWrapper.Begin B w).1, (GormDBWrapper.Begin B w).2) := by
  simp only [GormDBWrapper.Transaction]
  rw [hb]

theorem Transaction_fn_err (B : Backend E R) (w : GormDBWrapper E R)
    (fc : GormDBWrapper E R → Option E × GormDBWrapper E R) (e : E)
    (tx2 : GormDBWrapper E R)
    (hb : (GormDBWrapper.GetDB (GormDBWrapper.Begin B w).1).Error = none)
    (hfc : fc (GormDBWrapper.Begin B w).1 = (some e, tx2)) :
    GormDBWrapper.Transaction B w fc =
      (some e, (GormDBWrapper.Rollback B tx2).1,
        (GormDBWrapper.Begin B w).2 ++ (GormDBWrapper.Rollback B tx2).2) := by
  simp only [GormDBWrapper.Transaction]
  rw [hb, hfc]

theorem Transaction_fn_ok (B : Backend E R) (w : GormDBWrapper E R)
    (fc : GormDBWrapper E R → Option E × GormDBWrapper E R)
    (tx2 : GormDBWrapper E R)
    (hb : (GormDBWrapper.GetDB (GormDBWrapper.Begin B w).1).Error = none)
    (hfc : fc (GormDBWrapper.Begin B w).1 = (none, tx2)) :
    GormDBWrapper.Transaction B w fc =
      (none, (GormDBWrapper.Commit B tx2).1,
        (GormDBWrapper.Begin B w).2 ++ (GormDBWrapper.Commit B tx2).2) := by
  simp only [GormDBWrapper.Transaction]
  rw [hb, hfc]

/-- Backend instance with identity operations, used to evaluate the
theorems at concrete inputs. -/
def idBackend : Backend Nat Unit where
  create db _ := db
  find db _ _ := db
  first db _ _ := db
  save db _ := db
  delete db _ _ := db
  withContext db _ := db
  begin db := db
  commit db := db
  rollback db := db

/-- Backend like `idBackend` except that `rollback` records an error in
the handle, exercising the "rollback outcome is discarded" path. -/
def rbFailBackend : Backend Nat Unit :=
  { idBackend with rollback := fun db => { db with Error := some 99 } }

/-- Concrete live-mode wrapper (no recorder attached, no pending error). -/
def wLive : GormDBWrapper Nat Unit :=
  ⟨⟨none, ()⟩, none, 7⟩

/-- Concrete live-mode wrapper whose handle already carries an error, so
that `Begin` (identity backend) leaves a non-nil error slot. -/
def wBeginErr : GormDBWrapper Nat Unit :=
  ⟨⟨some 5, ()⟩, none, 7⟩

/-- Concrete wrapper with an empty call recorder attached (mock mode). -/
def wMock : GormDBWrapper Nat Unit :=
  ⟨⟨none, ()⟩, some ⟨[]⟩, 7⟩

/-- C1: for every transactional function `fc` and every backend, in an
execution of `Transaction` where `Begin` succeeds (the handle's error
slot is nil after `Begin`), exactly one of Commit/Rollback is invoked:
if `fc` returns a non-nil error, Rollback is invoked exactly once and
Commit never; if `fc` returns nil, Commit is invoked exactly once and
Rollback never; and in every case the two invocation counts sum to one —
never both, never neither (this holds whatever `fc` did to the handle's
state, including its error slot). -/
theorem Transaction_exactly_one_of_commit_rollback (B : Backend E R)
    (w : GormDBWrapper E R) (fc : GormDBWrapper E R → Option E × GormDBWrapper E R)
    (hb : (GormDBWrapper.GetDB (GormDBWrapper.Begin B w).1).Error = none) :
    (∀ e tx2, fc (GormDBWrapper.Begin B w).1 = (some e, tx2) →
        countEv .rollback (GormDBWrapper.Transaction B w fc).2.2 = 1 ∧
        countEv .commit (GormDBWrapper.Transaction B w fc).2.2 = 0) ∧
    (∀ tx2, fc (GormDBWrapper.Begin B w).1 = (none, tx2) →
        countEv .commit (GormDBWrapper.Transaction B w fc).2.2 = 1 ∧
        countEv .rollback (GormDBWrapper.Transaction B w fc).2.2 = 0) ∧
    countEv .rollback (GormDBWrapper.Transaction B w fc).2.2 +
      countEv .commit (GormDBWrapper.Transaction B w fc).2.2 = 1 := by
  refine ⟨?_, ?_, ?_⟩
  · intro e tx2 hfc
    rw [Transaction_fn_err B w fc e tx2 hb hfc]
    constructor <;>
      simp [countEv_append, countEv_Begin, countEv_Rollback, countEv_Commit]
  · intro tx2 hfc
    rw [Transaction_fn_ok B w fc tx2 hb hfc]
    constructor <;>
      simp [countEv_append, countEv_Begin, countEv_Rollback, countEv_Commit]
  · rcases hfc : fc (GormDBWrapper.Begin B w).1 with ⟨r, tx2⟩
    cases r with
    | some e =>
        rw [Transaction_fn_err B w fc e tx2 hb hfc]
        simp [countEv_append, countEv_Begin, countEv_Rollback, countEv_Commit]
    | none =>
        rw [Transaction_fn_ok B w fc tx2 hb hfc]
        simp [countEv_append, countEv_Begin, countEv_Rollback, countEv_Commit]

/-- Witness for C1: with the identity backend, a live wrapper and a
transactional function returning error 3, Rollback is invoked exactly
once and Commit never. -/
theorem Transaction_exactly_one_of_commit_rollback_witness :
    countEv .rollback (GormDBWrapper.Transaction idBackend wLive
        (fun tx => (some 3, tx))).2.2 = 1 ∧
    countEv .commit (GormDBWrapper.Transaction idBackend wLive
        (fun tx => (some 3, tx))).2.2 = 0 :=
  (Transaction_exactly_one_of_commit_rollback idBackend wLive
      (fun tx => (some 3, tx)) rfl).1 3 (GormDBWrapper.Begin idBackend wLive).1 rfl

/-- C2: if `Begin` leaves a non-nil error `e` in the handle's error
slot, `Transaction` returns exactly that error; the whole outcome is
independent of the transactional function (so `fc` is never invoked),
and neither Commit nor Rollback is called. -/
theorem Transaction_short_circuits_on_begin_error (B : Backend E R)
    (w : GormDBWrapper E R) (fc : GormDBWrapper E R → Option E × GormDBWrapper E R)
    (e : E)
    (hb : (GormDBWrapper.GetDB (GormDBWrapper.Begin B w).1).Error = some e) :
    (GormDBWrapper.Transaction B w fc).1 = some e ∧
    (∀ fc', GormDBWrapper.Transaction B w fc' = GormDBWrapper.Transaction B w fc) ∧
    countEv .rollback (GormDBWrapper.Transaction B w fc).2.2 = 0 ∧
    countEv .commit (GormDBWrapper.Transaction B w fc).2.2 = 0 := by
  have h1 := Transaction_begin_fail B w fc e hb
  refine ⟨by rw [h1], fun fc' => by rw [Transaction_begin_fail B w fc' e hb, h1], ?_, ?_⟩
  · rw [h1]; simp [countEv_Begin]
  · rw [h1]; simp [countEv_Begin]

/-- Witness for C2: with the identity backend and a wrapper whose handle
already carries error 5, `Transaction` returns error 5. -/
theorem Transaction_short_circuits_on_begin_error_witness :
    (GormDBWrapper.Transaction idBackend wBeginErr (fun tx => (none, tx))).1 = some 5 :=
  (Transaction_short_circuits_on_begin_error idBackend wBeginErr
      (fun tx => (none, tx)) 5 rfl).1

/-- C3: when `Begin` succeeds and the transactional function returns a
non-nil error `e`, `Transaction` calls Rollback on the handle the
function left (exactly once) and returns exactly `e`.  The returned
error is `some e` for EVERY backend — in particular also for a backend
whose rollback itself writes an error into the handle — so rollback's
own outcome is discarded and never surfaced to the caller. -/
theorem Transaction_propagates_fn_error_unchanged (B : Backend E R)
    (w : GormDBWrapper E R) (fc : GormDBWrapper E R → Option E × GormDBWrapper E R)
    (e : E) (tx2 : GormDBWrapper E R)
    (hb : (GormDBWrapper.GetDB (GormDBWrapper.Begin B w).1).Error = none)
    (hfc : fc (GormDBWrapper.Begin B w).1 = (some e, tx2)) :
    (GormDBWrapper.Transaction B w fc).1 = some e ∧
    (GormDBWrapper.Transaction B w fc).2.1 = (GormDBWrapper.Rollback B tx2).1 ∧
    countEv .rollback (GormDBWrapper.Transaction B w fc).2.2 = 1 := by
  have h1 := Transaction_fn_err B w fc e tx2 hb hfc
  refine ⟨by rw [h1], by rw [h1], ?_⟩
  rw [h1]
  simp [countEv_append, countEv_Begin, countEv_Rollback]

/-- Witness for C3: with a backend whose rollback records error 99, a
function returning error 3 still makes `Transaction` return exactly 3. -/
theorem Transaction_propagates_fn_error_unchanged_witness :
    (GormDBWrapper.Transaction rbFailBackend wLive (fun tx => (some 3, tx))).1 = some 3 :=
  (Transaction_propagates_fn_error_unchanged rbFailBackend wLive
      (fun tx => (some 3, tx)) 3 (GormDBWrapper.Begin rbFailBackend wLive).1 rfl rfl).1

/-- C6: every wrapper operation does exactly one of record/forward: if a
recorder is attached, the call appends exactly its method name and
arguments to the recorder, leaves the backend handle untouched (no
backend call) and emits the single `recorded` event; if none is
attached, it forwards to the backend and emits the single `forwarded`
event; in both cases the trace of the call has exactly one event, so
never both and never neither. -/
theorem wrapper_record_xor_forward (B : Backend E R) (w : GormDBWrapper E R) (op : WOp) :
    (∀ m, w.Mock = some m →
        applyOp B w op =
          ({ w with Mock := some (m.Called op.name op.calledArgs) },
            [Ev.recorded op.name op.calledArgs])) ∧
    (w.Mock = none →
        applyOp B w op = ({ w with DB := liveStep B w.DB op }, [Ev.forwarded op.name])) ∧
    (applyOp B w op).2.length = 1 := by
  refine ⟨fun m hm => applyOp_mock B w op m hm, fun hm => applyOp_live B w op hm, ?_⟩
  rcases hm : w.Mock with _ | m
  · rw [applyOp_live B w op hm]; rfl
  · rw [applyOp_mock B w op m hm]; rfl

/-- Witness for C6: a wrapper with an empty recorder records a `Create`
call with its argument and performs no backend call. -/
theorem wrapper_record_xor_forward_witness :
    applyOp idBackend wMock (.create (.base 4)) =
      ({ wMock with Mock := some (MockRec.Called ⟨[]⟩ .create [.base 4]) },
        [Ev.recorded .create [.base 4]]) :=
  (wrapper_record_xor_forward idBackend wMock (.create (.base 4))).1 ⟨[]⟩ rfl

/-- C7: in live mode (no recorder), every wrapper operation replaces the
stored `*gorm.DB` handle with exactly what the backend returned and
changes nothing else (`Mock` and the receiver identity are untouched);
`GetDB` on the result exposes exactly that returned handle — hence its
error state — until a later call overwrites the field. -/
theorem live_call_replaces_handle (B : Backend E R) (w : GormDBWrapper E R) (op : WOp)
    (hm : w.Mock = none) :
    (applyOp B w op).1 = { w with DB := liveStep B w.DB op } ∧
    GormDBWrapper.GetDB (applyOp B w op).1 = liveStep B w.DB op ∧
    (applyOp B w op).1.Mock = w.Mock ∧
    (applyOp B w op).1.ref = w.ref := by
  rw [applyOp_live B w op hm]
  exact ⟨rfl, rfl, rfl, rfl⟩

/-- Witness for C7: a live `Save` call stores the backend's returned
handle and `GetDB` exposes it. -/
theorem live_call_replaces_handle_witness :
    (applyOp idBackend wLive (.save (.base 2))).1 =
      { wLive with DB := liveStep idBackend wLive.DB (.save (.base 2)) } :=
  (live_call_replaces_handle idBackend wLive (.save (.base 2)) rfl).1

/-- C9: every wrapper operation — in recorder mode and in live mode —
returns the very wrapper object it was invoked on: the receiver's
identity (`ref`) is preserved, so in particular the transaction handle
produced by `begin()` is the original wrapper itself, mutated in place,
not a distinct object. -/
theorem wrapper_returns_receiver (B : Backend E R) (w : GormDBWrapper E R) (op : WOp) :
    (applyOp B w op).1.ref = w.ref := by
  rcases hm : w.Mock with _ | m
  · rw [applyOp_live B w op hm]
  · rw [applyOp_mock B w op m hm]

/-- Backend instance whose condition-taking operations store into `rest`
the condition arguments they actually receive, used to observe the
argument shape the wrapper forwards. -/
def condSpy : Backend Unit (List GoVal) where
  create db _ := db
  find db _ wher := { db with rest := wher }
  first db _ conds := { db with rest := conds }
  save db _ := db
  delete db _ conds := { db with rest := conds }
  withContext db _ := db
  begin db := db
  commit db := db
  rollback db := db

/-- Concrete live-mode wrapper over the condition-spying backend. -/
def wSpy : GormDBWrapper Unit (List GoVal) :=
  ⟨⟨none, []⟩, none, 0⟩

/-- C4 evaluation: in live mode, `Find` with conditions `[c1, c2]` hands
the backend exactly those two conditions, but `First` with the same
conditions hands the backend ONE condition — the conditions slice as a
single element (the source passes `conds` to the variadic parameter
without spreading it) — which differs from the two original conditions. -/
theorem First_condition_shape_eval :
    ((GormDBWrapper.Find condSpy wSpy (.ptr 0) [.base 1, .base 2]).1.DB.rest
        = [GoVal.base 1, GoVal.base 2]) ∧
    ((GormDBWrapper.First condSpy wSpy (.ptr 0) [.base 1, .base 2]).1.DB.rest
        = [GoVal.slice [.base 1, .base 2]]) ∧
    [GoVal.slice [.base 1, .base 2]] ≠ [GoVal.base 1, GoVal.base 2] := by
  refine ⟨rfl, rfl, fun h => ?_⟩
  injection h with h1 _
  exact GoVal.noConfusion h1

namespace RepoM

/-!
Second layer: the generic `GormRepository[T]` of the repository source,
embedded at the typed instantiation the repository uses, together with
the wrapper methods it calls.  Go's pass-by-value of the entity argument
and the `&obj` / `&results` address-of-local idiom are made explicit by
a small heap of locals: `tcells` holds `T`-typed locals and `lcells`
holds `[]T`-typed locals, addressed by index.  Per the backend contract
of spec §4.1, each backend operation reads the entity through the
supplied pointer and leaves its write-back there, so the typed backend
ops take the pointee value and return the value written back.
-/

/-- Heap of Go locals: `T`-typed cells and `[]T`-typed cells. -/
structure Heap (T : Type) where
  tcells : List T
  lcells : List (List T)

variable {T : Type}

/-- Allocation of a fresh `T` local holding `v`; its address is the
previous length. -/
def Heap.allocT (h : Heap T) (v : T) : Heap T × Nat :=
  ({ h with tcells := h.tcells ++ [v] }, h.tcells.length)

/-- Allocation of a fresh `[]T` local holding `v`. -/
def Heap.allocL (h : Heap T) (v : List T) : Heap T × Nat :=
  ({ h with lcells := h.lcells ++ [v] }, h.lcells.length)

/-- Read of a `T` local (out-of-range reads give the zero value, as a
Go zero value). -/
def Heap.getT [Inhabited T] (h : Heap T) (a : Nat) : T :=
  h.tcells.getD a default

/-- Read of a `[]T` local. -/
def Heap.getL (h : Heap T) (a : Nat) : List T :=
  h.lcells.getD a []

/-- Write of a `T` local. -/
def Heap.setT (h : Heap T) (a : Nat) (v : T) : Heap T :=
  { h with tcells := h.tcells.set a v }

/-- Write of a `[]T` local. -/
def Heap.setL (h : Heap T) (a : Nat) (v : List T) : Heap T :=
  { h with lcells := h.lcells.set a v }

/-- The gorm engine at the repository's typed instantiation (spec §4.1):
every operation gets the current handle state and, for the
entity-pointer operations, the pointee value, and returns the new handle
state together with the value it writes back through that pointer;
`find` gets the initial pointee of the output-slice pointer and the
condition list, returning the slice it writes back. -/
structure HBackend (E R T C K : Type) where
  withContext : GormDB E R → C → GormDB E R
  create : GormDB E R → T → GormDB E R × T
  save : GormDB E R → T → GormDB E R × T
  delete : GormDB E R → T → GormDB E R × T
  find : GormDB E R → List T → List K → GormDB E R × List T

/-- One recorded call of the typed wrapper's recorder: the method with
the pointer argument (an address) and, for `find`, the conditions. -/
inductive RCall (C K : Type) where
  | withContext (c : C)
  | create (p : Nat)
  | save (p : Nat)
  | delete (p : Nat)
  | find (p : Nat) (conds : List K)

/-- The dual-mode wrapper at the typed instantiation: the stored handle,
the optional recorder (list of recorded calls) and the receiver
identity. -/
structure GormDBWrapper (E R C K : Type) where
  DB : GormDB E R
  Mock : Option (List (RCall C K))
  ref : Nat

variable {E R C K : Type}

/-- GormDBWrapper.WithContext at the typed instantiation. -/
def GormDBWrapper.WithContext (B : HBackend E R T C K) (w : GormDBWrapper E R C K)
    (ctx : C) : GormDBWrapper E R C K :=
  match w.Mock with
  | some m => { w with Mock := some (m ++ [.withContext ctx]) }
  | none => { w with DB := B.withContext w.DB ctx }

/-- GormDBWrapper.Create at the typed instantiation: the argument is the
address of the entity local; the live branch hands the backend the
pointee and stores the backend's write-back there. -/
def GormDBWrapper.Create [Inhabited T] (B : HBackend E R T C K) (w : GormDBWrapper E R C K)
    (h : Heap T) (p : Nat) : GormDBWrapper E R C K × Heap T :=
  match w.Mock with
  | some m => ({ w with Mock := some (m ++ [.create p]) }, h)
  | none =>
      let r := B.create w.DB (h.getT p)
      ({ w with DB := r.1 }, h.setT p r.2)

/-- GormDBWrapper.Save at the typed instantiation. -/
def GormDBWrapper.Save [Inhabited T] (B : HBackend E R T C K) (w : GormDBWrapper E R C K)
    (h : Heap T) (p : Nat) : GormDBWrapper E R C K × Heap T :=
  match w.Mock with
  | some m => ({ w with Mock := some (m ++ [.save p]) }, h)
  | none =>
      let r := B.save w.DB (h.getT p)
      ({ w with DB := r.1 }, h.setT p r.2)

/-- GormDBWrapper.Delete at the typed instantiation (the repository
passes no conditions). -/
def GormDBWrapper.Delete [Inhabited T] (B : HBackend E R T C K) (w : GormDBWrapper E R C K)
    (h : Heap T) (p : Nat) : GormDBWrapper E R C K × Heap T :=
  match w.Mock with
  | some m => ({ w with Mock := some (m ++ [.delete p]) }, h)
  | none =>
      let r := B.delete w.DB (h.getT p)
      ({ w with DB := r.1 }, h.setT p r.2)

/-- GormDBWrapper.Find at the typed instantiation: the first argument is
the address of the output-slice local. -/
def GormDBWrapper.Find (B : HBackend E R T C K) (w : GormDBWrapper E R C K)
    (h : Heap T) (p : Nat) (conds : List K) : GormDBWrapper E R C K × Heap T :=
  match w.Mock with
  | some m => ({ w with Mock := some (m ++ [.find p conds]) }, h)
  | none =>
      let r := B.find w.DB (h.getL p) conds
      ({ w with DB := r.1 }, h.setL p r.2)

/-- GormDBWrapper.GetDB at the typed instantiation. -/
def GormDBWrapper.GetDB (w : GormDBWrapper E R C K) : GormDB E R :=
  w.DB

/-- GormRepository: holds a reference to one wrapper. -/
structure GormRepository (E R C K : Type) where
  DB : GormDBWrapper E R C K

/-- GormRepository.Create: `obj` arrives by value (a copy); `&obj`
allocates the local copy, then
`with_context := gdb.DB.WithContext(ctx)`,
`create := with_context.Create(&obj)`, `db := create.GetDB()`, and the
result is `db.Error`. -/
def GormRepository.Create [Inhabited T] (B : HBackend E R T C K)
    (gdb : GormRepository E R C K) (h : Heap T) (ctx : C) (obj : T) :
    Option E × GormDBWrapper E R C K × Heap T :=
  let al := h.allocT obj
  let with_context := GormDBWrapper.WithContext B gdb.DB ctx
  let create := GormDBWrapper.Create B with_context al.1 al.2
  let db := GormDBWrapper.GetDB create.1
  (db.Error, create.1, create.2)

/-- GormRepository.Find: `var results []T` allocates an empty slice
local, then
`err := gdb.DB.WithContext(ctx).Find(&results, conds...).GetDB().Error`
and the function returns `(results, err)` — `results` read back from the
local after the call. -/
def GormRepository.Find [Inhabited T] (B : HBackend E R T C K)
    (gdb : GormRepository E R C K) (h : Heap T) (ctx : C) (conds : List K) :
    List T × Option E × GormDBWrapper E R C K × Heap T :=
  let al := h.allocL []
  let step := GormDBWrapper.Find B (GormDBWrapper.WithContext B gdb.DB ctx) al.1 al.2 conds
  ((step.2).getL al.2, (GormDBWrapper.GetDB step.1).Error, step.1, step.2)

/-- GormRepository.Save: as `Create`, with the wrapper's `Save`. -/
def GormRepository.Save [Inhabited T] (B : HBackend E R T C K)
    (gdb : GormRepository E R C K) (h : Heap T) (ctx : C) (obj : T) :
    Option E × GormDBWrapper E R C K × Heap T :=
  let al := h.allocT obj
  let step := GormDBWrapper.Save B (GormDBWrapper.WithContext B gdb.DB ctx) al.1 al.2
  ((GormDBWrapper.GetDB step.1).Error, step.1, step.2)

/-- GormRepository.Delete: as `Create`, with the wrapper's `Delete`. -/
def GormRepository.Delete [Inhabited T] (B : HBackend E R T C K)
    (gdb : GormRepository E R C K) (h : Heap T) (ctx : C) (obj : T) :
    Option E × GormDBWrapper E R C K × Heap T :=
  let al := h.allocT obj
  let step := GormDBWrapper.Delete B (GormDBWrapper.WithContext B gdb.DB ctx) al.1 al.2
  ((GormDBWrapper.GetDB step.1).Error, step.1, step.2)

end RepoM

namespace RepoM

theorem getD_append_lt {A : Type} (l l2 : List A) (d : A) (a : Nat) (ha : a < l.length) :
    (l ++ l2).getD a d = l.getD a d := by
  induction l generalizing a with
  | nil => exact absurd ha (Nat.not_lt_zero a)
  | cons b t ih =>
      cases a with
      | zero => rfl
      | succ n => simpa using ih n (Nat.lt_of_succ_lt_succ ha)

theorem getD_concat {A : Type} (l : List A) (v d : A) :
    (l ++ [v]).getD l.length d = v := by
  induction l with
  | nil => rfl
  | cons b t ih => simp [ih]

theorem concat_set_length {A : Type} (l : List A) (v x : A) :
    (l ++ [v]).set l.length x = l ++ [x] := by
  induction l with
  | nil => rfl
  | cons b t ih => simp [ih]

end RepoM

namespace RepoM

/-- Backend instance with identity handle transitions and pass-through
write-backs, used for concrete evaluation. -/
def idHBackend : HBackend Nat Unit Nat Nat Nat where
  withContext db _ := db
  create db v := (db, v)
  save db v := (db, v)
  delete db v := (db, v)
  find db init _ := (db, init)

/-- Concrete live-mode typed wrapper. -/
def wrLive : GormDBWrapper Nat Unit Nat Nat := ⟨⟨none, ()⟩, none, 3⟩

/-- Concrete repository over `wrLive`. -/
def repoLive : GormRepository Nat Unit Nat Nat := ⟨wrLive⟩

/-- Empty heap of `Nat` locals. -/
def h0 : Heap Nat := ⟨[], []⟩

/-- Heap with one caller-held local (value 10 at address 0). -/
def h1 : Heap Nat := ⟨[10], []⟩

/-- C5: for every context and entity value, `Repository.Create` applies
the context via `WithContext`, forwards the address of its local copy of
`obj` to the wrapper's `Create` — so in live mode the backend's create
receives exactly the value `obj` through that pointer, applied to the
handle `WithContext` produced — and returns exactly the backend's
post-call error slot value, verbatim: never wrapped, translated or
replaced. -/
theorem Create_returns_error_slot_verbatim {E R T C K : Type} [Inhabited T]
    (B : HBackend E R T C K) (gdb : GormRepository E R C K) (h : Heap T)
    (ctx : C) (obj : T) (hm : gdb.DB.Mock = none) :
    (GormRepository.Create B gdb h ctx obj).1 =
      (B.create (B.withContext gdb.DB.DB ctx) obj).1.Error := by
  simp [GormRepository.Create, GormDBWrapper.WithContext, GormDBWrapper.Create,
    GormDBWrapper.GetDB, hm, Heap.allocT, Heap.getT, getD_concat]

/-- Witness for C5: with the identity backend, a live repository on an
empty heap returns the backend's (nil) post-call error slot. -/
theorem Create_returns_error_slot_verbatim_witness :
    (GormRepository.Create idHBackend repoLive h0 0 4).1 =
      (idHBackend.create (idHBackend.withContext repoLive.DB.DB 0) 4).1.Error :=
  Create_returns_error_slot_verbatim idHBackend repoLive h0 0 4 rfl

/-- Modelled from the spec: the concrete relational engine and its
query execution are an external collaborator outside `src/` (spec §1,
§4.1), so the empty-store round trip is settled against this
instantiation of the §4.1 backend contract — the backing rows are the
list in the handle's `rest`, `find` writes the rows matching every
condition through the output pointer and leaves the error slot
untouched (zero matching rows is not an error), `create`/`save` append
a row, `delete` removes the matching rows. -/
def memBackend (E T : Type) [DecidableEq T] : HBackend E (List T) T Unit (T → Bool) where
  withContext db _ := db
  create db v := ({ db with rest := db.rest ++ [v] }, v)
  save db v := ({ db with rest := db.rest ++ [v] }, v)
  delete db v := ({ db with rest := db.rest.filter fun t => decide (t ≠ v) }, v)
  find db _ conds := (db, db.rest.filter fun t => conds.all fun k => k t)

/-- C8: `Repository.Find` allocates an empty result sequence, applies
the context, forwards the conditions to the wrapper's find, and returns
the pair of the sequence the backend wrote back through the output
pointer and the backend's post-call error slot (first conjunct, for
every backend, live mode); against the spec-modelled in-memory backend
with an empty backing store and no pending error, it returns an empty
sequence and a nil error — "no rows" is not reported as an error
(second conjunct). -/
theorem Find_returns_written_back_pair :
    (∀ (E R T C K : Type) [Inhabited T] (B : HBackend E R T C K)
        (gdb : GormRepository E R C K) (h : Heap T) (ctx : C) (conds : List K),
        gdb.DB.Mock = none →
        (GormRepository.Find B gdb h ctx conds).1 =
          (B.find (B.withContext gdb.DB.DB ctx) [] conds).2 ∧
        (GormRepository.Find B gdb h ctx conds).2.1 =
          (B.find (B.withContext gdb.DB.DB ctx) [] conds).1.Error) ∧
    (∀ (E T : Type) [DecidableEq T] [Inhabited T]
        (gdb : GormRepository E (List T) Unit (T → Bool)) (h : Heap T)
        (conds : List (T → Bool)),
        gdb.DB.Mock = none → gdb.DB.DB.Error = none → gdb.DB.DB.rest = [] →
        (GormRepository.Find (memBackend E T) gdb h () conds).1 = [] ∧
        (GormRepository.Find (memBackend E T) gdb h () conds).2.1 = none) := by
  constructor
  · intro E R T C K _ B gdb h ctx conds hm
    constructor <;>
      simp [GormRepository.Find, GormDBWrapper.WithContext, GormDBWrapper.Find,
        GormDBWrapper.GetDB, hm, Heap.allocL, Heap.getL, Heap.setL,
        concat_set_length, getD_concat]
  · intro E T _ _ gdb h conds hm he hr
    constructor <;>
      simp [GormRepository.Find, GormDBWrapper.WithContext, GormDBWrapper.Find,
        GormDBWrapper.GetDB, memBackend, hm, he, hr, Heap.allocL, Heap.getL,
        Heap.setL, concat_set_length, getD_concat]

/-- Concrete repository over the in-memory backend with an empty store. -/
def memRepo : GormRepository Nat (List Nat) Unit (Nat → Bool) :=
  ⟨⟨⟨none, []⟩, none, 0⟩⟩

/-- Witness for C8: a find with one (unsatisfiable) condition against
the empty in-memory store returns the empty sequence and a nil error. -/
theorem Find_returns_written_back_pair_witness :
    (GormRepository.Find (memBackend Nat Nat) memRepo h0 ()
        [fun t => decide (t = 1)]).1 = [] ∧
    (GormRepository.Find (memBackend Nat Nat) memRepo h0 ()
        [fun t => decide (t = 1)]).2.1 = none :=
  Find_returns_written_back_pair.2 Nat Nat memRepo h0
    [fun t => decide (t = 1)] rfl rfl rfl

/-- C10: `Repository.Create`, `Save` and `Delete` receive the entity by
value and hand the wrapper the address of their freshly allocated local
copy, so every caller-held local is untouched by the three operations —
in recorder mode and live mode alike (first three conjuncts); in live
mode the backend's write-back (e.g. a generated primary key) lands in
that local copy at the fresh address, which the operations discard on
return, so it is never visible to the caller (last conjunct). -/
theorem mutations_act_on_discarded_copy {E R T C K : Type} [Inhabited T]
    (B : HBackend E R T C K) (gdb : GormRepository E R C K) (h : Heap T)
    (ctx : C) (obj : T) (a : Nat) (ha : a < h.tcells.length) :
    ((GormRepository.Create B gdb h ctx obj).2.2).getT a = h.getT a ∧
    ((GormRepository.Save B gdb h ctx obj).2.2).getT a = h.getT a ∧
    ((GormRepository.Delete B gdb h ctx obj).2.2).getT a = h.getT a ∧
    (gdb.DB.Mock = none →
        ((GormRepository.Create B gdb h ctx obj).2.2).getT h.tcells.length =
          (B.create (B.withContext gdb.DB.DB ctx) obj).2) := by
  have hpres : ∀ x : T,
      (((h.allocT obj).1.setT (h.allocT obj).2 x).getT a = h.getT a) := by
    intro x
    show ((h.tcells ++ [obj]).set h.tcells.length x).getD a default =
      h.tcells.getD a default
    rw [concat_set_length]
    exact getD_append_lt h.tcells [x] default a ha
  have hpres0 : ((h.allocT obj).1).getT a = h.getT a := by
    show (h.tcells ++ [obj]).getD a default = h.tcells.getD a default
    exact getD_append_lt h.tcells [obj] default a ha
  refine ⟨?_, ?_, ?_, ?_⟩
  · rcases hm : gdb.DB.Mock with _ | m
    · simp only [GormRepository.Create, GormDBWrapper.WithContext,
        GormDBWrapper.Create, GormDBWrapper.GetDB, hm]
      exact hpres _
    · simp only [GormRepository.Create, GormDBWrapper.WithContext,
        GormDBWrapper.Create, GormDBWrapper.GetDB, hm]
      exact hpres0
  · rcases hm : gdb.DB.Mock with _ | m
    · simp only [GormRepository.Save, GormDBWrapper.WithContext,
        GormDBWrapper.Save, GormDBWrapper.GetDB, hm]
      exact hpres _
    · simp only [GormRepository.Save, GormDBWrapper.WithContext,
        GormDBWrapper.Save, GormDBWrapper.GetDB, hm]
      exact hpres0
  · rcases hm : gdb.DB.Mock with _ | m
    · simp only [GormRepository.Delete, GormDBWrapper.WithContext,
        GormDBWrapper.Delete, GormDBWrapper.GetDB, hm]
      exact hpres _
    · simp only [GormRepository.Delete, GormDBWrapper.WithContext,
        GormDBWrapper.Delete, GormDBWrapper.GetDB, hm]
      exact hpres0
  · intro hmn
    simp only [GormRepository.Create, GormDBWrapper.WithContext,
      GormDBWrapper.Create, GormDBWrapper.GetDB, hmn, Heap.allocT, Heap.getT,
      Heap.setT, concat_set_length, getD_concat]

/-- Witness for C10: with one caller-held local (address 0), a concrete
`Create` leaves that local unchanged. -/
theorem mutations_act_on_discarded_copy_witness :
    ((GormRepository.Create idHBackend repoLive h1 0 4).2.2).getT 0 = h1.getT 0 :=
  (mutations_act_on_discarded_copy idHBackend repoLive h1 0 4 0 (by decide)).1

end RepoM
